import Mathlib

/-!
Shallow embedding of the Note-Keeper backend (Express + Mongoose).

The embedding covers the code the specification's claims are about:

* the authentication controller (`register`, `login`),
* the notes controller (`getAllNotes`, `getNoteById`, `createNote`,
  `updateNote`, `deleteNote`),
* the Mongoose schemas for `User` and `Note` together with the store
  semantics their options induce (trim setter, minlength and required
  validators, store-assigned unique identifiers, automatic timestamps).

The MongoDB store is modelled as an explicit state (`Db`) threaded through
every handler; `res.status(..).json(..)` responses are modelled by small
response types carrying the status code and body; bcrypt is modelled as an
abstract salted hash carrying the salt and verifiable against the original
password (one-wayness is a property of bcrypt itself, not of this code);
jsonwebtoken is modelled by a record of the signed payload and expiry.
Timestamps and the per-call bcrypt salt enter as explicit parameters.
-/

namespace NoteKeeper

/-- Trim of leading and trailing whitespace, as performed by the Mongoose
`trim: true` setter on the `username` path (and by `String.prototype.trim`).
Implemented structurally on the character list so that it evaluates inside
the kernel. -/
def trimJS (s : String) : String :=
  ⟨List.reverse (List.dropWhile Char.isWhitespace
    (List.reverse (List.dropWhile Char.isWhitespace s.data)))⟩

/-- Abstract model of a bcrypt hash value: `bcrypt.hash(password, salt)`
produces a value embedding the salt and checkable against the original
password, and `bcrypt.compare` succeeds exactly on that password. -/
structure BcryptHash where
  salt : Nat
  source : String
deriving DecidableEq

/-- Model of `bcrypt.hash(password, salt)`. -/
def bcryptHash (password : String) (salt : Nat) : BcryptHash :=
  { salt := salt, source := password }

/-- Model of `bcrypt.compare(password, hash)`. -/
def bcryptCompare (password : String) (h : BcryptHash) : Bool :=
  password == h.source

/-- A persisted user document (models/User.js): store-assigned id, unique
trimmed username, bcrypt-hashed password, automatic timestamps. -/
structure User where
  id : Nat
  username : String
  password : BcryptHash
  createdAt : Nat
  updatedAt : Nat
deriving DecidableEq

/-- A persisted note document (models/Note.js): store-assigned id, title,
content, owning user reference, automatic timestamps. -/
structure Note where
  id : Nat
  title : String
  content : String
  user : Nat
  createdAt : Nat
  updatedAt : Nat
deriving DecidableEq

/-- The MongoDB store: the two collections plus the id generators for
store-assigned identifiers. -/
structure Db where
  users : List User
  notes : List Note
  nextUserId : Nat
  nextNoteId : Nat
deriving DecidableEq

/-- Store-level invariant maintained by MongoDB: document ids in the notes
collection are pairwise distinct, and ids already in use are below the
generator for the next one. -/
def Db.WF (db : Db) : Prop :=
  (db.notes.map Note.id).Nodup ∧ ∀ n ∈ db.notes, n.id < db.nextNoteId

instance (db : Db) : Decidable db.WF := by
  unfold Db.WF; infer_instance

/-- JS falsiness of an optional string field of a JSON body: a field that is
absent (`none`, JS `undefined`) or the empty string is falsy, which is what
the controllers' `if (!username || !password)` guard tests. -/
def falsy (o : Option String) : Bool :=
  o.getD "" == ""

/-- A signed JWT as minted by `jwt.sign` in the login controller: the payload
fields (user id and username), the issue time, and the expiry time. -/
structure Token where
  id : Nat
  username : String
  iat : Nat
  exp : Nat
deriving DecidableEq

/-- Model of `jwt.sign` with payload id and username and option expiresIn
of one hour: the expiry is the issue time plus 3600 seconds. -/
def jwtSign (id : Nat) (username : String) (now : Nat) : Token :=
  { id := id, username := username, iat := now, exp := now + 3600 }

/-- The sanitized user view returned by a successful login: the controller
builds an object holding exactly the id and the username. -/
structure UserView where
  id : Nat
  username : String
deriving DecidableEq

/-- Responses of the auth controller: either a status code with a message
body, or the 200 login success carrying the token and the sanitized user. -/
inductive AuthRes where
  | message (status : Nat) (text : String)
  | loginOk (token : Token) (user : UserView)
deriving DecidableEq

/-- Model of `new User({username, password}).save()`: Mongoose applies the
trim setter to `username`, then runs the validators (required together with
`minlength: 3` on the trimmed username; the `minlength: 6` on the password
path applies to the already-hashed 60-character value, so it always passes),
and the unique index on `username` rejects a duplicate. On any failure the
promise rejects — modelled by `none` — which the controller's catch block
turns into a 500; on success the document is inserted with a store-assigned
id and automatic timestamps. -/
def saveUser (db : Db) (now : Nat) (username : String) (hashed : BcryptHash) :
    Option Db :=
  let trimmed := trimJS username
  if trimmed.length < 3 then none
  else if db.users.any (fun u => u.username == trimmed) then none
  else some { db with
    users := db.users ++ [{ id := db.nextUserId, username := trimmed,
                            password := hashed, createdAt := now, updatedAt := now }],
    nextUserId := db.nextUserId + 1 }

/-- Model of the register controller (controllers/authController.js): checks
the falsy guard, looks an existing user up by username (Mongoose applies the
trim setter to query filters as well), otherwise hashes the password with the
per-call salt and saves a new user. Returns the response together with the
resulting store. -/
def register (db : Db) (now salt : Nat) (username password : Option String) :
    AuthRes × Db :=
  if falsy username || falsy password then
    (AuthRes.message 400 "Username and password are required", db)
  else
    match db.users.find? (fun u => u.username == trimJS (username.getD "")) with
    | some _ => (AuthRes.message 400 "Username already exists", db)
    | none =>
      match saveUser db now (username.getD "") (bcryptHash (password.getD "") salt) with
      | some db2 => (AuthRes.message 201 "User registered successfully", db2)
      | none => (AuthRes.message 500 "Server error", db)

/-- Model of the login controller (controllers/authController.js),
instrumented with the number of bcrypt compare operations the call performs
(the dominant cost of the handler, hence the caller-observable timing):
falsy guard, user lookup by username with the password field selected,
generic 400 on absent user, bcrypt verification, generic 400 on mismatch,
and on success a token signed over id and username plus the sanitized user
view. -/
def loginCounted (db : Db) (now : Nat) (username password : Option String) :
    AuthRes × Nat :=
  if falsy username || falsy password then
    (AuthRes.message 400 "Username and password are required", 0)
  else
    match db.users.find? (fun u => u.username == trimJS (username.getD "")) with
    | none => (AuthRes.message 400 "Invalid credentials", 0)
    | some u =>
      if bcryptCompare (password.getD "") u.password then
        (AuthRes.loginOk (jwtSign u.id u.username now)
          { id := u.id, username := u.username }, 1)
      else (AuthRes.message 400 "Invalid credentials", 1)

/-- The login controller's response alone. -/
def login (db : Db) (now : Nat) (username password : Option String) : AuthRes :=
  (loginCounted db now username password).1

/-- Responses of the notes controller: a 200 listing, a single note with its
status code, or a status code with a message body. -/
inductive NotesRes where
  | listing (status : Nat) (notes : List Note)
  | single (status : Nat) (note : Note)
  | message (status : Nat) (text : String)
deriving DecidableEq

/-- Order used by `getAllNotes`: sort option createdAt descending, so a note
precedes another when its creation time is at least as large. -/
def byNewest (a b : Note) : Prop :=
  b.createdAt ≤ a.createdAt

instance : DecidableRel byNewest :=
  fun a b => inferInstanceAs (Decidable (b.createdAt ≤ a.createdAt))

instance : IsTotal Note byNewest :=
  ⟨fun a b => Nat.le_total b.createdAt a.createdAt⟩

instance : IsTrans Note byNewest :=
  ⟨fun _ _ _ hab hbc => Nat.le_trans hbc hab⟩

/-- Model of the getAllNotes controller: `Note.find` filtered on the
authenticated user, sorted by creation time descending, returned with
status 200. MongoDB guarantees the sort order and nothing more, which any
sorted permutation of the filtered collection realizes. -/
def getAllNotes (db : Db) (userId : Nat) : NotesRes :=
  NotesRes.listing 200
    (List.insertionSort byNewest (db.notes.filter (fun n => n.user == userId)))

/-- The dual filter used by get, update and delete: the note must match both
the requested note id and the authenticated owner. -/
def matchesNote (noteId userId : Nat) (n : Note) : Bool :=
  n.id == noteId && n.user == userId

/-- Model of the getNoteById controller: `Note.findOne` under the dual
filter; 404 when nothing matches. -/
def getNoteById (db : Db) (userId noteId : Nat) : NotesRes :=
  match db.notes.find? (matchesNote noteId userId) with
  | none => NotesRes.message 404 "Note not found!"
  | some n => NotesRes.single 200 n

/-- A notes request body: the controller destructures `title` and `content`;
a `user` field a client may send is carried here to state that it is never
consulted. -/
structure NoteBody where
  title : Option String
  content : Option String
  user : Option Nat
deriving DecidableEq

/-- Mongoose required validator on a String path: the value must be defined
and non-empty. -/
def present (o : Option String) : Bool :=
  !(o.getD "" == "")

/-- Model of the createNote controller: builds a note from the body's title
and content with the owner taken from the authenticated identity, saves it
(running the required validators), and returns 201 with the saved document;
a validation rejection is caught and surfaced as a 500. -/
def createNote (db : Db) (now userId : Nat) (body : NoteBody) : NotesRes × Db :=
  if present body.title && present body.content then
    let n : Note := { id := db.nextNoteId, title := body.title.getD "",
                      content := body.content.getD "", user := userId,
                      createdAt := now, updatedAt := now }
    (NotesRes.single 201 n,
     { db with notes := db.notes ++ [n], nextNoteId := db.nextNoteId + 1 })
  else (NotesRes.message 500 "Internal server error", db)

/-- The update document `findOneAndUpdate` applies: Mongoose strips keys
whose value is undefined, so an absent title or content leaves the stored
field unchanged, and the timestamps option refreshes updatedAt. -/
def applyBodyUpdate (body : NoteBody) (now : Nat) (n : Note) : Note :=
  { n with title := body.title.getD n.title,
           content := body.content.getD n.content, updatedAt := now }

/-- Replace the first element satisfying the filter, as a single-document
findOneAndUpdate does. -/
def updateFirst {α : Type} (p : α → Bool) (f : α → α) : List α → List α
  | [] => []
  | a :: as => if p a then f a :: as else a :: updateFirst p f as

/-- Remove the first element satisfying the filter, as a single-document
findOneAndDelete does. -/
def removeFirst {α : Type} (p : α → Bool) : List α → List α
  | [] => []
  | a :: as => if p a then as else a :: removeFirst p as

/-- Model of the updateNote controller: `Note.findOneAndUpdate` under the
dual filter with option new, returning the updated document; 404 when
nothing matches. -/
def updateNote (db : Db) (now userId noteId : Nat) (body : NoteBody) :
    NotesRes × Db :=
  match db.notes.find? (matchesNote noteId userId) with
  | none => (NotesRes.message 404 "Note not found", db)
  | some n =>
    (NotesRes.single 200 (applyBodyUpdate body now n),
     { db with notes := updateFirst (matchesNote noteId userId)
                          (applyBodyUpdate body now) db.notes })

/-- Model of the deleteNote controller: `Note.findOneAndDelete` under the
dual filter; 404 when nothing matches, otherwise the document is removed and
a success message returned. -/
def deleteNote (db : Db) (userId noteId : Nat) : NotesRes × Db :=
  match db.notes.find? (matchesNote noteId userId) with
  | none => (NotesRes.message 404 "Note not found", db)
  | some _ =>
    (NotesRes.message 200 "Note deleted successfully!",
     { db with notes := removeFirst (matchesNote noteId userId) db.notes })

/-! Helper lemmas shared by the claim theorems below. -/

/-- Distinct store ids make `Note.id` injective on the collection. -/
theorem wf_id_inj {db : Db} (hwf : db.WF) {x y : Note} (hx : x ∈ db.notes)
    (hy : y ∈ db.notes) (hid : x.id = y.id) : x = y :=
  List.inj_on_of_nodup_map hwf.1 hx hy hid

/-- The dual filter finds nothing when no document matches it. -/
theorem find?_matches_none {l : List Note} {noteId userId : Nat}
    (h : ∀ m ∈ l, ¬(m.id = noteId ∧ m.user = userId)) :
    l.find? (matchesNote noteId userId) = none := by
  rw [List.find?_eq_none]
  intro x hx
  simpa [matchesNote] using h x hx

/-- Under the store invariant, the dual filter finds exactly the matching
document. -/
theorem find?_matches_some {db : Db} (hwf : db.WF) {n : Note} (hn : n ∈ db.notes)
    {noteId userId : Nat} (hid : n.id = noteId) (huser : n.user = userId) :
    db.notes.find? (matchesNote noteId userId) = some n := by
  have hsome : (db.notes.find? (matchesNote noteId userId)).isSome := by
    rw [List.find?_isSome]
    exact ⟨n, hn, by simp [matchesNote, hid, huser]⟩
  obtain ⟨m, hm⟩ := Option.isSome_iff_exists.mp hsome
  have hmem := List.mem_of_find?_eq_some hm
  have hp := List.find?_some hm
  simp only [matchesNote, Bool.and_eq_true, beq_iff_eq] at hp
  have hmn : m = n := wf_id_inj hwf hmem hn (by rw [hp.1, hid])
  rw [hm, hmn]

/-- Updating the first match keeps the collection's length. -/
theorem updateFirst_length {α : Type} (p : α → Bool) (f : α → α) :
    ∀ l : List α, (updateFirst p f l).length = l.length := by
  intro l
  induction l with
  | nil => rfl
  | cons a as ih => by_cases h : p a <;> simp [updateFirst, h, ih]

/-- A field the update function leaves alone is unchanged across the whole
collection. -/
theorem updateFirst_map_invariant {α β : Type} (p : α → Bool) (f : α → α)
    (g : α → β) (hg : ∀ a, g (f a) = g a) :
    ∀ l : List α, (updateFirst p f l).map g = l.map g := by
  intro l
  induction l with
  | nil => rfl
  | cons a as ih => by_cases h : p a <;> simp [updateFirst, h, hg, ih]

/-- The updated form of the found document is in the updated collection. -/
theorem updateFirst_mem_found {α : Type} {p : α → Bool} {f : α → α} {l : List α}
    {n : α} (hfind : l.find? p = some n) : f n ∈ updateFirst p f l := by
  induction l with
  | nil => simp [List.find?] at hfind
  | cons a as ih =>
    by_cases h : p a
    · rw [List.find?_cons_of_pos as h] at hfind
      injection hfind with h2
      subst h2
      simp [updateFirst, h]
    · rw [List.find?_cons_of_neg as h] at hfind
      simp only [updateFirst, if_neg h, List.mem_cons]
      exact Or.inr (ih hfind)

/-- A document the filter does not match survives the update unchanged. -/
theorem updateFirst_mem_untouched {α : Type} {p : α → Bool} {f : α → α}
    {l : List α} {m : α} (hm : m ∈ l) (hpm : p m = false) :
    m ∈ updateFirst p f l := by
  induction l with
  | nil => simp at hm
  | cons a as ih =>
    rcases List.mem_cons.mp hm with rfl | hmas
    · simp [updateFirst, hpm]
    · by_cases h : p a
      · simp only [updateFirst, if_pos h, List.mem_cons]
        exact Or.inr hmas
      · simp only [updateFirst, if_neg h, List.mem_cons]
        exact Or.inr (ih hmas)

/-- When at most one document can match (distinct ids), removing the first
match is removing every match. -/
theorem removeFirst_eq_filter {noteId userId : Nat} :
    ∀ {l : List Note}, (l.map Note.id).Nodup →
      removeFirst (matchesNote noteId userId) l
        = l.filter (fun m => !(matchesNote noteId userId m)) := by
  intro l
  induction l with
  | nil => intro _; rfl
  | cons a as ih =>
    intro hnd
    rw [List.map_cons, List.nodup_cons] at hnd
    by_cases h : matchesNote noteId userId a
    · have hid : a.id = noteId := by
        have := h
        simp only [matchesNote, Bool.and_eq_true, beq_iff_eq] at this
        exact this.1
      have htail : as.filter (fun m => !(matchesNote noteId userId m)) = as := by
        rw [List.filter_eq_self]
        intro x hx
        simp only [matchesNote, Bool.not_eq_true', Bool.and_eq_false_iff]
        by_contra hcon
        simp only [Bool.and_eq_false_iff, beq_eq_false_iff_ne, not_or, not_ne_iff] at hcon
        have hmem : a.id ∈ List.map Note.id as := by
          rw [hid, ← hcon.1]
          exact List.mem_map_of_mem Note.id hx
        exact hnd.1 hmem
      simp [removeFirst, h, List.filter_cons, htail]
    · simp [removeFirst, h, List.filter_cons, ih hnd.2]

/-- Removing the found document shortens the collection by exactly one. -/
theorem removeFirst_length {α : Type} {p : α → Bool} {l : List α} {n : α}
    (hfind : l.find? p = some n) : (removeFirst p l).length + 1 = l.length := by
  induction l with
  | nil => simp [List.find?] at hfind
  | cons a as ih =>
    by_cases h : p a
    · simp [removeFirst, h]
    · rw [List.find?_cons_of_neg as h] at hfind
      simp [removeFirst, h, ih hfind]

/-- Lookup by username finds nothing when no user carries that username. -/
theorem find?_username_none {l : List User} {s : String}
    (h : ∀ u ∈ l, u.username ≠ s) :
    l.find? (fun u => u.username == s) = none := by
  rw [List.find?_eq_none]
  intro u hu
  simpa using h u hu

/-- A successful lookup by username returns a member carrying the username. -/
theorem find?_username_found {l : List User} {s : String} {u : User}
    (hfind : l.find? (fun v => v.username == s) = some u) :
    u ∈ l ∧ u.username = s :=
  ⟨List.mem_of_find?_eq_some hfind, by simpa using List.find?_some hfind⟩

/-- A present non-empty string field is not falsy. -/
theorem falsy_some {s : String} (h : s ≠ "") : falsy (some s) = false := by
  simp [falsy, h]

/-- The user document register persists on success. -/
def registeredUser (db : Db) (now salt : Nat) (username password : String) : User :=
  { id := db.nextUserId, username := trimJS username,
    password := bcryptHash password salt, createdAt := now, updatedAt := now }

/-- Register rejects a falsy username or password with the 400 message. -/
theorem register_missing (db : Db) (now salt : Nat) (username password : Option String)
    (h : (falsy username || falsy password) = true) :
    register db now salt username password
      = (AuthRes.message 400 "Username and password are required", db) := by
  simp [register, h]

/-- Register rejects an already-taken username with the 400 conflict
message, leaving the store unchanged. -/
theorem register_conflict (db : Db) (now salt : Nat) (username password : Option String)
    (h : (falsy username || falsy password) = false)
    (hex : ∃ u ∈ db.users, u.username = trimJS (username.getD "")) :
    register db now salt username password
      = (AuthRes.message 400 "Username already exists", db) := by
  have hsome : (db.users.find? (fun u => u.username == trimJS (username.getD ""))).isSome := by
    rw [List.find?_isSome]
    obtain ⟨u, hu, he⟩ := hex
    exact ⟨u, hu, by simpa using he⟩
  obtain ⟨u, hu⟩ := Option.isSome_iff_exists.mp hsome
  simp [register, h, hu]

/-- Register appends exactly one user, hashed with the per-call salt, when
the username is free and its trimmed form is long enough. -/
theorem register_ok (db : Db) (now salt : Nat) (username password : Option String)
    (h : (falsy username || falsy password) = false)
    (hfresh : ∀ u ∈ db.users, u.username ≠ trimJS (username.getD ""))
    (hlen : 3 ≤ (trimJS (username.getD "")).length) :
    register db now salt username password
      = (AuthRes.message 201 "User registered successfully",
         { db with
           users := db.users
             ++ [registeredUser db now salt (username.getD "") (password.getD "")],
           nextUserId := db.nextUserId + 1 }) := by
  have hany : db.users.any (fun u => u.username == trimJS (username.getD "")) = false := by
    rw [List.any_eq_false]
    intro u hu
    simpa using hfresh u hu
  simp [register, h, find?_username_none hfresh, saveUser,
    show ¬((trimJS (username.getD "")).length < 3) from Nat.not_lt.mpr hlen,
    hany, registeredUser]

/-- Register caught by save-time validation: a free username whose trimmed
form is too short yields the 500 server error and persists nothing. -/
theorem register_shortname (db : Db) (now salt : Nat) (username password : Option String)
    (h : (falsy username || falsy password) = false)
    (hfresh : ∀ u ∈ db.users, u.username ≠ trimJS (username.getD ""))
    (hlen : (trimJS (username.getD "")).length < 3) :
    register db now salt username password = (AuthRes.message 500 "Server error", db) := by
  simp [register, h, find?_username_none hfresh, saveUser, hlen]

/-- Login success shape when the lookup finds a user whose hash verifies. -/
theorem loginCounted_ok (db : Db) (now : Nat) (username password : String) (u : User)
    (hu : username ≠ "") (hp : password ≠ "")
    (hfind : db.users.find? (fun v => v.username == trimJS username) = some u)
    (hcmp : bcryptCompare password u.password = true) :
    loginCounted db now (some username) (some password)
      = (AuthRes.loginOk { id := u.id, username := u.username, iat := now, exp := now + 3600 }
           { id := u.id, username := u.username }, 1) := by
  simp [loginCounted, falsy_some hu, falsy_some hp, hfind, hcmp, jwtSign]

/-- Login failure shape for a username no user carries: the generic message,
with no hash comparison performed. -/
theorem loginCounted_absent (db : Db) (now : Nat) (username password : String)
    (hu : username ≠ "") (hp : password ≠ "")
    (habsent : ∀ v ∈ db.users, v.username ≠ trimJS username) :
    loginCounted db now (some username) (some password)
      = (AuthRes.message 400 "Invalid credentials", 0) := by
  simp [loginCounted, falsy_some hu, falsy_some hp, find?_username_none habsent]

/-- Login failure shape for a found user whose hash does not verify: the
same generic message, after one hash comparison. -/
theorem loginCounted_found_wrong (db : Db) (now : Nat) (username password : String)
    (u : User) (hu : username ≠ "") (hp : password ≠ "")
    (hfind : db.users.find? (fun v => v.username == trimJS username) = some u)
    (hcmp : bcryptCompare password u.password = false) :
    loginCounted db now (some username) (some password)
      = (AuthRes.message 400 "Invalid credentials", 1) := by
  simp [loginCounted, falsy_some hu, falsy_some hp, hfind, hcmp]

/-! Sample stores and bodies used by the concrete instantiations. -/

/-- The empty store. -/
def emptyDb : Db :=
  { users := [], notes := [], nextUserId := 0, nextNoteId := 0 }

/-- A store holding one registered user. -/
def dbAlice : Db :=
  { users := [{ id := 0, username := "alice",
                password := { salt := 5, source := "pw123" },
                createdAt := 0, updatedAt := 0 }],
    notes := [], nextUserId := 1, nextNoteId := 0 }

/-- A store holding three notes of two owners. -/
def dbNotes : Db :=
  { users := [],
    notes := [ { id := 0, title := "t0", content := "c0", user := 1,
                 createdAt := 5, updatedAt := 5 },
               { id := 1, title := "t1", content := "c1", user := 2,
                 createdAt := 9, updatedAt := 9 },
               { id := 2, title := "t2", content := "c2", user := 1,
                 createdAt := 7, updatedAt := 7 } ],
    nextUserId := 0, nextNoteId := 3 }

/-- The first note of dbNotes, owned by user 1. -/
def noteZero : Note :=
  { id := 0, title := "t0", content := "c0", user := 1, createdAt := 5, updatedAt := 5 }

/-- A request body carrying no fields. -/
def emptyBody : NoteBody :=
  { title := none, content := none, user := none }

/-- A request body carrying only a title. -/
def bodyX : NoteBody :=
  { title := some "x", content := none, user := none }

/-- A request body carrying a title, a content and a client-supplied owner
field the controller must ignore. -/
def bodyTC : NoteBody :=
  { title := some "t", content := some "c", user := some 77 }

/-! Claim theorems. -/

/-- C1: for every note owned by user A and every distinct user B, the notes
operations get, update and delete invoked with B's identity and that note's
id fail with the 404 NotFound response — for get, the identical response an
id absent from the store yields — and leave the note store unchanged, never
returning or modifying the note's data. -/
theorem crossUserIsolation (db : Db) (hwf : db.WF) (n : Note) (hn : n ∈ db.notes)
    (B : Nat) (hB : B ≠ n.user) (now : Nat) (body : NoteBody)
    (freshId : Nat) (hfresh : ∀ m ∈ db.notes, m.id ≠ freshId) :
    getNoteById db B n.id = NotesRes.message 404 "Note not found!" ∧
    getNoteById db B n.id = getNoteById db B freshId ∧
    updateNote db now B n.id body = (NotesRes.message 404 "Note not found", db) ∧
    deleteNote db B n.id = (NotesRes.message 404 "Note not found", db) := by
  have hnone : db.notes.find? (matchesNote n.id B) = none := by
    apply find?_matches_none
    intro m hm hcon
    have hmn : m = n := wf_id_inj hwf hm hn hcon.1
    exact hB (by rw [← hcon.2, hmn])
  have hfnone : db.notes.find? (matchesNote freshId B) = none := by
    apply find?_matches_none
    intro m hm hcon
    exact hfresh m hm hcon.1
  refine ⟨?_, ?_, ?_, ?_⟩
  · simp [getNoteById, hnone]
  · simp [getNoteById, hnone, hfnone]
  · simp [updateNote, hnone]
  · simp [deleteNote, hnone]

/-- C1 witness: concrete instantiation at a store owned by users 1 and 2,
with the foreign caller 7 and the absent id 99. -/
theorem crossUserIsolationWitness :
    getNoteById dbNotes 7 noteZero.id = NotesRes.message 404 "Note not found!" ∧
    getNoteById dbNotes 7 noteZero.id = getNoteById dbNotes 7 99 ∧
    updateNote dbNotes 20 7 noteZero.id emptyBody
      = (NotesRes.message 404 "Note not found", dbNotes) ∧
    deleteNote dbNotes 7 noteZero.id = (NotesRes.message 404 "Note not found", dbNotes) :=
  crossUserIsolation dbNotes (by decide) noteZero (by decide) 7 (by decide)
    20 emptyBody 99 (by decide)

/-- C2 counterexample: at a concrete store, the nonexistent-username failure
and the wrong-password failure return the same response body, yet are not
indistinguishable as the claim states: the first performs no bcrypt hash
comparison while the second performs one — an observable timing difference,
since the code skips hash verification when the user is absent. -/
theorem loginTimingCounterexample :
    (loginCounted dbAlice 9 (some "bob") (some "pw123")).1
      = (loginCounted dbAlice 9 (some "alice") (some "wrong")).1 ∧
    (loginCounted dbAlice 9 (some "bob") (some "pw123")).2 = 0 ∧
    (loginCounted dbAlice 9 (some "alice") (some "wrong")).2 = 1 ∧
    loginCounted dbAlice 9 (some "bob") (some "pw123")
      ≠ loginCounted dbAlice 9 (some "alice") (some "wrong") := by decide

/-- C2 (amended): the nonexistent-username failure and the wrong-password
failure both answer status 400 with the identical message, so the response
alone does not let a caller enumerate usernames; the timing is however not
identical: the absent case performs no hash comparison, the wrong-password
case performs exactly one. -/
theorem loginFailuresSameResponse (db : Db) (now1 now2 : Nat)
    (u1 p1 u2 p2 : String) (hu1 : u1 ≠ "") (hp1 : p1 ≠ "")
    (hu2 : u2 ≠ "") (hp2 : p2 ≠ "")
    (habsent : ∀ v ∈ db.users, v.username ≠ trimJS u1)
    (hwrong : ∀ v ∈ db.users, v.username = trimJS u2 →
      bcryptCompare p2 v.password = false) :
    login db now1 (some u1) (some p1) = AuthRes.message 400 "Invalid credentials" ∧
    login db now2 (some u2) (some p2) = AuthRes.message 400 "Invalid credentials" ∧
    (loginCounted db now1 (some u1) (some p1)).2 = 0 ∧
    ((∃ v ∈ db.users, v.username = trimJS u2) →
      (loginCounted db now2 (some u2) (some p2)).2 = 1) := by
  have h1 : loginCounted db now1 (some u1) (some p1)
      = (AuthRes.message 400 "Invalid credentials", 0) :=
    loginCounted_absent db now1 u1 p1 hu1 hp1 habsent
  have h2 : login db now2 (some u2) (some p2) = AuthRes.message 400 "Invalid credentials" ∧
      ((∃ v ∈ db.users, v.username = trimJS u2) →
        (loginCounted db now2 (some u2) (some p2)).2 = 1) := by
    cases hfind : db.users.find? (fun v => v.username == trimJS u2) with
    | none =>
      have habs2 : ∀ v ∈ db.users, v.username ≠ trimJS u2 := by
        intro v hv
        simpa using List.find?_eq_none.mp hfind v hv
      have h2a : loginCounted db now2 (some u2) (some p2)
          = (AuthRes.message 400 "Invalid credentials", 0) :=
        loginCounted_absent db now2 u2 p2 hu2 hp2 habs2
      refine ⟨by simp [login, h2a], ?_⟩
      intro hex
      obtain ⟨v, hv, hve⟩ := hex
      exact absurd hve (habs2 v hv)
    | some u =>
      obtain ⟨hmem, huname⟩ := find?_username_found hfind
      have h2a : loginCounted db now2 (some u2) (some p2)
          = (AuthRes.message 400 "Invalid credentials", 1) :=
        loginCounted_found_wrong db now2 u2 p2 u hu2 hp2 hfind (hwrong u hmem huname)
      exact ⟨by simp [login, h2a], fun _ => by simp [h2a]⟩
  exact ⟨by simp [login, h1], h2.1, by simp [h1], h2.2⟩

/-- C2 witness: concrete instantiation at the one-user store, with an absent
username and a wrong password for the present one. -/
theorem loginFailuresSameResponseWitness :
    login dbAlice 9 (some "bob") (some "pw123") = AuthRes.message 400 "Invalid credentials" ∧
    login dbAlice 9 (some "alice") (some "wrong") = AuthRes.message 400 "Invalid credentials" ∧
    (loginCounted dbAlice 9 (some "bob") (some "pw123")).2 = 0 ∧
    ((∃ v ∈ dbAlice.users, v.username = trimJS "alice") →
      (loginCounted dbAlice 9 (some "alice") (some "wrong")).2 = 1) :=
  loginFailuresSameResponse dbAlice 9 9 "bob" "pw123" "alice" "wrong"
    (by decide) (by decide) (by decide) (by decide) (by decide) (by decide)

/-- C3 counterexample: with both fields present and no conflicting user the
claim requires success and one persisted user, but a two-character username
passes the controller guard and then fails the schema's save-time minlength
validation: the call answers 500 and persists nothing. -/
theorem registerShortUsernameCounterexample :
    falsy (some "ab") = false ∧ falsy (some "secret1") = false ∧
    emptyDb.users = [] ∧
    register emptyDb 0 0 (some "ab") (some "secret1")
      = (AuthRes.message 500 "Server error", emptyDb) := by decide

/-- C3 (amended): register answers 400 when a field is falsy, 400 conflict
when the username is already taken, persists exactly one new user holding
the salted hash and answers 201 when the username is free and its trimmed
form has length at least 3, answers 500 persisting nothing when the trimmed
form is shorter (save-time schema validation, surfaced by the catch block as
a server error rather than a 400 validation error), and a second
registration of the same username hits the conflict answer. In the first
four cases the store is exactly as stated: unchanged, unchanged, extended by
the single new user, unchanged. -/
theorem registerCharacterization (db : Db) (now salt : Nat)
    (username password : Option String) :
    ((falsy username || falsy password) = true →
      register db now salt username password
        = (AuthRes.message 400 "Username and password are required", db)) ∧
    ((falsy username || falsy password) = false →
      (∃ u ∈ db.users, u.username = trimJS (username.getD "")) →
      register db now salt username password
        = (AuthRes.message 400 "Username already exists", db)) ∧
    ((falsy username || falsy password) = false →
      (∀ u ∈ db.users, u.username ≠ trimJS (username.getD "")) →
      3 ≤ (trimJS (username.getD "")).length →
      register db now salt username password
        = (AuthRes.message 201 "User registered successfully",
           { db with
             users := db.users
               ++ [registeredUser db now salt (username.getD "") (password.getD "")],
             nextUserId := db.nextUserId + 1 })) ∧
    ((falsy username || falsy password) = false →
      (∀ u ∈ db.users, u.username ≠ trimJS (username.getD "")) →
      (trimJS (username.getD "")).length < 3 →
      register db now salt username password
        = (AuthRes.message 500 "Server error", db)) ∧
    ((falsy username || falsy password) = false →
      (∀ u ∈ db.users, u.username ≠ trimJS (username.getD "")) →
      3 ≤ (trimJS (username.getD "")).length →
      (register (register db now salt username password).2 now salt
          username password).1
        = AuthRes.message 400 "Username already exists") := by
  refine ⟨register_missing db now salt username password,
    register_conflict db now salt username password,
    register_ok db now salt username password,
    register_shortname db now salt username password, ?_⟩
  intro h hfresh hlen
  rw [register_ok db now salt username password h hfresh hlen]
  have h2 := register_conflict
    { db with
      users := db.users
        ++ [registeredUser db now salt (username.getD "") (password.getD "")],
      nextUserId := db.nextUserId + 1 }
    now salt username password h
    ⟨registeredUser db now salt (username.getD "") (password.getD ""), by simp, rfl⟩
  rw [h2]

/-- C3 witness: concrete successful registration at the empty store. -/
theorem registerCharacterizationWitness :
    register emptyDb 7 3 (some "alice") (some "secret1")
      = (AuthRes.message 201 "User registered successfully",
         { emptyDb with
           users := emptyDb.users ++ [registeredUser emptyDb 7 3 "alice" "secret1"],
           nextUserId := emptyDb.nextUserId + 1 }) :=
  (registerCharacterization emptyDb 7 3 (some "alice") (some "secret1")).2.2.1
    (by decide) (by decide) (by decide)

/-- C4 counterexample: the username of length 3 consisting of two spaces and
a letter, with a six-character password, is not previously registered, yet
register fails with the 500 server error (its trimmed form is too short for
the schema) and the subsequent login fails with the generic 400. -/
theorem registerLoginWhitespaceCounterexample :
    ("  a" : String).length = 3 ∧ ("secret" : String).length = 6 ∧
    emptyDb.users = [] ∧
    (register emptyDb 0 0 (some "  a") (some "secret")).1
      = AuthRes.message 500 "Server error" ∧
    login (register emptyDb 0 0 (some "  a") (some "secret")).2 1
        (some "  a") (some "secret")
      = AuthRes.message 400 "Invalid credentials" := by decide

/-- C4 (amended): for all credentials whose username trimmed of surrounding
whitespace has length at least 3 (in particular any whitespace-free username
of length at least 3) and whose password has length at least 6, not
previously registered, register succeeds and a login with the same
credentials succeeds, returning a token that decodes to the trimmed
username — equal to the given username whenever it carries no surrounding
whitespace. -/
theorem registerThenLogin (db : Db) (now1 now2 salt : Nat)
    (username password : String)
    (hu : 3 ≤ (trimJS username).length) (hp : 6 ≤ password.length)
    (hnew : ∀ u ∈ db.users, u.username ≠ trimJS username) :
    (register db now1 salt (some username) (some password)).1
      = AuthRes.message 201 "User registered successfully" ∧
    login (register db now1 salt (some username) (some password)).2 now2
        (some username) (some password)
      = AuthRes.loginOk
          { id := db.nextUserId, username := trimJS username,
            iat := now2, exp := now2 + 3600 }
          { id := db.nextUserId, username := trimJS username } := by
  have hune : username ≠ "" := by
    intro he
    rw [he] at hu
    exact absurd hu (by decide)
  have hpne : password ≠ "" := by
    intro he
    rw [he] at hp
    exact absurd hp (by decide)
  have hfalse : (falsy (some username) || falsy (some password)) = false := by
    simp [falsy_some hune, falsy_some hpne]
  have hreg := register_ok db now1 salt (some username) (some password) hfalse hnew hu
  constructor
  · rw [hreg]
  · rw [hreg]
    have hfind : (db.users ++ [registeredUser db now1 salt username password]).find?
        (fun v => v.username == trimJS username)
        = some (registeredUser db now1 salt username password) := by
      rw [List.find?_append, find?_username_none hnew]
      simp [registeredUser]
    have hlc := loginCounted_ok
      { db with users := db.users ++ [registeredUser db now1 salt username password],
                nextUserId := db.nextUserId + 1 }
      now2 username password (registeredUser db now1 salt username password)
      hune hpne hfind
      (show bcryptCompare password
          (registeredUser db now1 salt username password).password = true by
        simp [registeredUser, bcryptHash, bcryptCompare])
    simp only [registeredUser] at hlc
    simp [login, hlc, registeredUser]

/-- C4 witness: concrete register-then-login round trip at the empty store. -/
theorem registerThenLoginWitness :
    (register emptyDb 7 3 (some "alice") (some "secret1")).1
      = AuthRes.message 201 "User registered successfully" ∧
    login (register emptyDb 7 3 (some "alice") (some "secret1")).2 9
        (some "alice") (some "secret1")
      = AuthRes.loginOk
          { id := emptyDb.nextUserId, username := trimJS "alice",
            iat := 9, exp := 9 + 3600 }
          { id := emptyDb.nextUserId, username := trimJS "alice" } :=
  registerThenLogin emptyDb 7 9 3 "alice" "secret1" (by decide) (by decide) (by decide)

/-- C5: a successful login mints a token embedding exactly the found user's
id and username whose expiry is the issue time plus one hour, and the
response is that token plus the sanitized view holding only the id and the
username — the stored password hash appears nowhere in the response, whose
user object is built from the id and username fields alone. -/
theorem loginSuccessShape (db : Db) (now : Nat) (username password : String)
    (u : User) (hu : username ≠ "") (hp : password ≠ "")
    (hfind : db.users.find? (fun v => v.username == trimJS username) = some u)
    (hcmp : bcryptCompare password u.password = true) :
    login db now (some username) (some password)
      = AuthRes.loginOk
          { id := u.id, username := u.username, iat := now, exp := now + 3600 }
          { id := u.id, username := u.username } ∧
    (∀ tok view, login db now (some username) (some password)
        = AuthRes.loginOk tok view → tok.exp = tok.iat + 3600) := by
  have h := loginCounted_ok db now username password u hu hp hfind hcmp
  have hl : login db now (some username) (some password)
      = AuthRes.loginOk
          { id := u.id, username := u.username, iat := now, exp := now + 3600 }
          { id := u.id, username := u.username } := by
    simp [login, h]
  refine ⟨hl, ?_⟩
  intro tok view heq
  rw [hl] at heq
  injection heq with htok hview
  rw [← htok]

/-- C5 witness: concrete successful login at the one-user store. -/
theorem loginSuccessShapeWitness :
    login dbAlice 9 (some "alice") (some "pw123")
      = AuthRes.loginOk
          { id := 0, username := "alice", iat := 9, exp := 9 + 3600 }
          { id := 0, username := "alice" } ∧
    (∀ tok view, login dbAlice 9 (some "alice") (some "pw123")
        = AuthRes.loginOk tok view → tok.exp = tok.iat + 3600) :=
  loginSuccessShape dbAlice 9 "alice" "pw123"
    { id := 0, username := "alice", password := { salt := 5, source := "pw123" },
      createdAt := 0, updatedAt := 0 }
    (by decide) (by decide) (by decide) (by decide)

/-- C6: update under the dual filter fails with the 404 NotFound response
exactly when no note matches both the requested id and the owner (covering
alike a note that does not exist and a note of another user), leaving the
note store unchanged in that case; when a note matches, the single atomic
find-and-update returns the updated record, the updated record is stored,
every other note is untouched and the collection's size is unchanged. -/
theorem updateNoteSpec (db : Db) (now userId noteId : Nat) (body : NoteBody)
    (hwf : db.WF) :
    ((∀ m ∈ db.notes, ¬(m.id = noteId ∧ m.user = userId)) →
      updateNote db now userId noteId body
        = (NotesRes.message 404 "Note not found", db)) ∧
    ((updateNote db now userId noteId body).1 = NotesRes.message 404 "Note not found" ↔
      ∀ m ∈ db.notes, ¬(m.id = noteId ∧ m.user = userId)) ∧
    (∀ n, n ∈ db.notes → n.id = noteId → n.user = userId →
      (updateNote db now userId noteId body).1
          = NotesRes.single 200 (applyBodyUpdate body now n) ∧
        applyBodyUpdate body now n ∈ (updateNote db now userId noteId body).2.notes ∧
        (∀ m ∈ db.notes, m ≠ n → m ∈ (updateNote db now userId noteId body).2.notes) ∧
        (updateNote db now userId noteId body).2.notes.length = db.notes.length) := by
  have h404 : (∀ m ∈ db.notes, ¬(m.id = noteId ∧ m.user = userId)) →
      updateNote db now userId noteId body
        = (NotesRes.message 404 "Note not found", db) := by
    intro h
    simp [updateNote, find?_matches_none h]
  refine ⟨h404, ⟨?_, fun h => by rw [h404 h]⟩, ?_⟩
  · intro heq m hm hcon
    have hfind := find?_matches_some hwf hm hcon.1 hcon.2
    simp [updateNote, hfind] at heq
  · intro n hn hid huser
    have hfind := find?_matches_some hwf hn hid huser
    have hpairs : updateNote db now userId noteId body
        = (NotesRes.single 200 (applyBodyUpdate body now n),
           { db with notes := updateFirst (matchesNote noteId userId)
                                (applyBodyUpdate body now) db.notes }) := by
      simp [updateNote, hfind]
    refine ⟨by rw [hpairs], ?_, ?_, ?_⟩
    · rw [hpairs]
      exact updateFirst_mem_found hfind
    · intro m hm hne
      rw [hpairs]
      apply updateFirst_mem_untouched hm
      cases hpm : matchesNote noteId userId m with
      | false => rfl
      | true =>
        exfalso
        have hcon : m.id = noteId ∧ m.user = userId := by
          simpa [matchesNote] using hpm
        exact hne (wf_id_inj hwf hm hn (by rw [hcon.1, hid]))
    · rw [hpairs]
      exact updateFirst_length _ _ _

/-- C6 witness: concrete instantiation updating the title of note 0 of
user 1. -/
theorem updateNoteSpecWitness :
    (updateNote dbNotes 20 1 0 bodyX).1
        = NotesRes.single 200 (applyBodyUpdate bodyX 20 noteZero) ∧
    applyBodyUpdate bodyX 20 noteZero ∈ (updateNote dbNotes 20 1 0 bodyX).2.notes ∧
    (∀ m ∈ dbNotes.notes, m ≠ noteZero → m ∈ (updateNote dbNotes 20 1 0 bodyX).2.notes) ∧
    (updateNote dbNotes 20 1 0 bodyX).2.notes.length = dbNotes.notes.length :=
  (updateNoteSpec dbNotes 20 1 0 bodyX (by decide)).2.2 noteZero
    (by decide) (by decide) (by decide)

/-- C7: delete under the dual filter fails with the 404 NotFound response
when no note matches both the requested id and the owner, removing nothing;
when a note matches, the single atomic find-and-delete answers the 200
success message and hard-deletes exactly that note: it is gone from the
store, every other note survives, nothing new appears, and the collection
shrinks by exactly one. -/
theorem deleteNoteSpec (db : Db) (userId noteId : Nat) (hwf : db.WF) :
    ((∀ m ∈ db.notes, ¬(m.id = noteId ∧ m.user = userId)) →
      deleteNote db userId noteId = (NotesRes.message 404 "Note not found", db)) ∧
    (∀ n, n ∈ db.notes → n.id = noteId → n.user = userId →
      (deleteNote db userId noteId).1
          = NotesRes.message 200 "Note deleted successfully!" ∧
        n ∉ (deleteNote db userId noteId).2.notes ∧
        (∀ m ∈ db.notes, m ≠ n → m ∈ (deleteNote db userId noteId).2.notes) ∧
        (∀ m ∈ (deleteNote db userId noteId).2.notes, m ∈ db.notes) ∧
        (deleteNote db userId noteId).2.notes.length + 1 = db.notes.length) := by
  constructor
  · intro h
    simp [deleteNote, find?_matches_none h]
  · intro n hn hid huser
    have hfind := find?_matches_some hwf hn hid huser
    have hpairs : deleteNote db userId noteId
        = (NotesRes.message 200 "Note deleted successfully!",
           { db with notes := removeFirst (matchesNote noteId userId) db.notes }) := by
      simp [deleteNote, hfind]
    have hfilter : removeFirst (matchesNote noteId userId) db.notes
        = db.notes.filter (fun m => !(matchesNote noteId userId m)) :=
      removeFirst_eq_filter hwf.1
    refine ⟨by rw [hpairs], ?_, ?_, ?_, ?_⟩
    · rw [hpairs]
      simp only [hfilter, List.mem_filter]
      intro hcontra
      have : matchesNote noteId userId n = true := by simp [matchesNote, hid, huser]
      rw [this] at hcontra
      simp at hcontra
    · intro m hm hne
      rw [hpairs]
      simp only [hfilter, List.mem_filter]
      refine ⟨hm, ?_⟩
      cases hpm : matchesNote noteId userId m with
      | false => rfl
      | true =>
        exfalso
        have hcon : m.id = noteId ∧ m.user = userId := by
          simpa [matchesNote] using hpm
        exact hne (wf_id_inj hwf hm hn (by rw [hcon.1, hid]))
    · intro m hm
      rw [hpairs] at hm
      simp only [hfilter, List.mem_filter] at hm
      exact hm.1
    · rw [hpairs]
      exact removeFirst_length hfind

/-- C7 witness: concrete instantiation deleting note 0 of user 1. -/
theorem deleteNoteSpecWitness :
    (deleteNote dbNotes 1 0).1 = NotesRes.message 200 "Note deleted successfully!" ∧
    noteZero ∉ (deleteNote dbNotes 1 0).2.notes ∧
    (∀ m ∈ dbNotes.notes, m ≠ noteZero → m ∈ (deleteNote dbNotes 1 0).2.notes) ∧
    (∀ m ∈ (deleteNote dbNotes 1 0).2.notes, m ∈ dbNotes.notes) ∧
    (deleteNote dbNotes 1 0).2.notes.length + 1 = dbNotes.notes.length :=
  (deleteNoteSpec dbNotes 1 0 (by decide)).2 noteZero
    (by decide) (by decide) (by decide)

/-- The note document create persists: the owner is the authenticated
identity, never a client-supplied field of the body. -/
def createdNote (db : Db) (now userId : Nat) (body : NoteBody) : Note :=
  { id := db.nextNoteId, title := body.title.getD "",
    content := body.content.getD "", user := userId,
    createdAt := now, updatedAt := now }

/-- C8 counterexample: the claim requires every create call to persist and
succeed, but a present-yet-empty title fails the schema's required
validation: the call answers 500 and persists nothing. -/
theorem createEmptyTitleCounterexample :
    createNote emptyDb 5 0 { title := some "", content := some "c", user := none }
      = (NotesRes.message 500 "Internal server error", emptyDb) := by decide

/-- C8 (amended): for a body whose title and content are present and
non-empty (the schema's required validation), create persists exactly one
new note whose owner is the authenticated user — whatever owner field the
body carries — and answers 201 with the created record bearing the
store-assigned id and timestamps; a subsequent get by the same user with
that id answers 200 with the same record, whose title and content match the
request. -/
theorem createThenGet (db : Db) (now userId : Nat) (body : NoteBody) (hwf : db.WF)
    (ht : present body.title = true) (hc : present body.content = true) :
    (createNote db now userId body).1
        = NotesRes.single 201 (createdNote db now userId body) ∧
    (createdNote db now userId body).user = userId ∧
    (createdNote db now userId body).title = body.title.getD "" ∧
    (createdNote db now userId body).content = body.content.getD "" ∧
    (createNote db now userId body).2.notes
        = db.notes ++ [createdNote db now userId body] ∧
    getNoteById (createNote db now userId body).2 userId db.nextNoteId
        = NotesRes.single 200 (createdNote db now userId body) := by
  have hcn : createNote db now userId body
      = (NotesRes.single 201 (createdNote db now userId body),
         { db with notes := db.notes ++ [createdNote db now userId body],
                   nextNoteId := db.nextNoteId + 1 }) := by
    simp [createNote, ht, hc, createdNote]
  have hold : db.notes.find? (matchesNote db.nextNoteId userId) = none := by
    apply find?_matches_none
    intro m hm hcon
    exact absurd hcon.1 (Nat.ne_of_lt (hwf.2 m hm))
  refine ⟨by rw [hcn], rfl, rfl, rfl, by rw [hcn], ?_⟩
  rw [hcn]
  simp [getNoteById, List.find?_append, hold, matchesNote, createdNote]

/-- C8 witness: concrete create-then-get round trip, with a client-supplied
owner field 77 that the controller ignores in favor of user 5. -/
theorem createThenGetWitness :
    (createNote dbNotes 30 5 bodyTC).1
        = NotesRes.single 201 (createdNote dbNotes 30 5 bodyTC) ∧
    (createdNote dbNotes 30 5 bodyTC).user = 5 ∧
    (createdNote dbNotes 30 5 bodyTC).title = bodyTC.title.getD "" ∧
    (createdNote dbNotes 30 5 bodyTC).content = bodyTC.content.getD "" ∧
    (createNote dbNotes 30 5 bodyTC).2.notes
        = dbNotes.notes ++ [createdNote dbNotes 30 5 bodyTC] ∧
    getNoteById (createNote dbNotes 30 5 bodyTC).2 5 dbNotes.nextNoteId
        = NotesRes.single 200 (createdNote dbNotes 30 5 bodyTC) :=
  createThenGet dbNotes 30 5 bodyTC (by decide) (by decide) (by decide)

/-- C9: listing answers status 200 with exactly the caller's notes — a
permutation of the owner-filtered collection — ordered newest-created-first
(descending creation time), and a user with zero notes gets the empty
listing with the same 200 success status, not an error. -/
theorem getAllNotesSpec (db : Db) (userId : Nat) :
    ∃ l, getAllNotes db userId = NotesRes.listing 200 l ∧
      List.Perm l (db.notes.filter (fun n => n.user == userId)) ∧
      List.Sorted byNewest l ∧
      ((∀ n ∈ db.notes, n.user ≠ userId) →
        getAllNotes db userId = NotesRes.listing 200 []) := by
  refine ⟨List.insertionSort byNewest (db.notes.filter (fun n => n.user == userId)),
    rfl, List.perm_insertionSort byNewest _, List.sorted_insertionSort byNewest _, ?_⟩
  intro h
  have hnil : db.notes.filter (fun n => n.user == userId) = [] := by
    rw [List.filter_eq_nil_iff]
    intro n hn
    simpa using h n hn
  simp [getAllNotes, hnil]

/-- C9 witness: concrete listing for owner 1 (two notes, newest first) — the
instantiation also covers the zero-note owner through the final conjunct. -/
theorem getAllNotesSpecWitness :
    ∃ l, getAllNotes dbNotes 1 = NotesRes.listing 200 l ∧
      List.Perm l (dbNotes.notes.filter (fun n => n.user == 1)) ∧
      List.Sorted byNewest l ∧
      ((∀ n ∈ dbNotes.notes, n.user ≠ 1) →
        getAllNotes dbNotes 1 = NotesRes.listing 200 []) :=
  getAllNotesSpec dbNotes 1

/-- C10: a successful update changes at most the title, the content and the
updatedAt timestamp: the returned (and stored) record keeps the note's id,
owner and createdAt; an absent title or content field leaves the stored
field at its previous value while the operation still answers 200; and
across the whole store the ids, owners and creation times are unchanged. -/
theorem updateNoteFrame (db : Db) (now userId noteId : Nat) (body : NoteBody)
    (n : Note) (hfind : db.notes.find? (matchesNote noteId userId) = some n) :
    (updateNote db now userId noteId body).1
        = NotesRes.single 200 (applyBodyUpdate body now n) ∧
    (applyBodyUpdate body now n).id = n.id ∧
    (applyBodyUpdate body now n).user = n.user ∧
    (applyBodyUpdate body now n).createdAt = n.createdAt ∧
    (applyBodyUpdate body now n).updatedAt = now ∧
    (body.title = none → (applyBodyUpdate body now n).title = n.title) ∧
    (body.content = none → (applyBodyUpdate body now n).content = n.content) ∧
    (updateNote db now userId noteId body).2.notes.map Note.id
        = db.notes.map Note.id ∧
    (updateNote db now userId noteId body).2.notes.map Note.user
        = db.notes.map Note.user ∧
    (updateNote db now userId noteId body).2.notes.map Note.createdAt
        = db.notes.map Note.createdAt := by
  have hpairs : (updateNote db now userId noteId body).2.notes
      = updateFirst (matchesNote noteId userId) (applyBodyUpdate body now) db.notes := by
    simp [updateNote, hfind]
  refine ⟨by simp [updateNote, hfind], rfl, rfl, rfl, rfl, ?_, ?_, ?_, ?_, ?_⟩
  · intro h
    simp [applyBodyUpdate, h]
  · intro h
    simp [applyBodyUpdate, h]
  · rw [hpairs]
    exact updateFirst_map_invariant (matchesNote noteId userId)
      (applyBodyUpdate body now) Note.id (fun a => rfl) db.notes
  · rw [hpairs]
    exact updateFirst_map_invariant (matchesNote noteId userId)
      (applyBodyUpdate body now) Note.user (fun a => rfl) db.notes
  · rw [hpairs]
    exact updateFirst_map_invariant (matchesNote noteId userId)
      (applyBodyUpdate body now) Note.createdAt (fun a => rfl) db.notes

/-- C10 witness: concrete update of note 0 of user 1 with a body carrying no
fields: title and content are retained, only updatedAt moves. -/
theorem updateNoteFrameWitness :
    (updateNote dbNotes 20 1 0 emptyBody).1
        = NotesRes.single 200 (applyBodyUpdate emptyBody 20 noteZero) ∧
    (applyBodyUpdate emptyBody 20 noteZero).id = noteZero.id ∧
    (applyBodyUpdate emptyBody 20 noteZero).user = noteZero.user ∧
    (applyBodyUpdate emptyBody 20 noteZero).createdAt = noteZero.createdAt ∧
    (applyBodyUpdate emptyBody 20 noteZero).updatedAt = 20 ∧
    (emptyBody.title = none → (applyBodyUpdate emptyBody 20 noteZero).title = noteZero.title) ∧
    (emptyBody.content = none →
      (applyBodyUpdate emptyBody 20 noteZero).content = noteZero.content) ∧
    (updateNote dbNotes 20 1 0 emptyBody).2.notes.map Note.id
        = dbNotes.notes.map Note.id ∧
    (updateNote dbNotes 20 1 0 emptyBody).2.notes.map Note.user
        = dbNotes.notes.map Note.user ∧
    (updateNote dbNotes 20 1 0 emptyBody).2.notes.map Note.createdAt
        = dbNotes.notes.map Note.createdAt :=
  updateNoteFrame dbNotes 20 1 0 emptyBody noteZero (by decide)

end NoteKeeper
